import Mathlib

/-
  Verification development for the CloudStack virtual machine reconciliation
  module (cs_virtualmachine.py).  The definitions below are a shallow
  embedding of the module: the resolver helpers, the VM lifecycle methods
  (create, scale, remove, expunge, stop, start, restart), the async job
  poller, and the dispatch performed by main().  Remote calls are recorded
  in an explicit trace; the remote provider is modelled as the single
  source of truth holding at most one managed VM.

  Notes on the embedding:
  - The source file contains a few obvious syntax slips (a missing comma on
    line 258, a garbled membership test on line 380, a stray colon on line
    401, an extra parenthesis on line 440).  The embedding follows the
    evident intent of those lines, which matches the surrounding code and
    later revisions of the module.
  - The observed VM (the result of the initial get_vm lookup, cached by the
    module) is the input of reconcile, per the component design: the
    decision logic receives the current observed VirtualMachine or its
    absence.  The call trace therefore records the calls made by the
    decision logic itself.
  - Provider semantics (what a successfully submitted operation does to the
    remote VM, and that a terminal job result carries the updated snapshot
    under the virtualmachine key) are modelled from the external API client
    collaborator contract: with no external interference, each accepted
    operation completes with its documented effect.  An injected errortext
    on a call models a provider-reported synchronous failure.
-/

namespace CsVm

/-- A single quote character, used inside provider and module messages. -/
def sq : String := "\x27"

/-- Lifecycle states reported by the provider for a virtual machine. -/
inductive VmState where
  | starting
  | running
  | stopping
  | stopped
  | expunging
  | destroying
  | destroyed
  | error
  deriving DecidableEq, Repr

/-- The result of vm[state].lower() as the module computes it. -/
def VmState.lower : VmState → String
  | .starting => "starting"
  | .running => "running"
  | .stopping => "stopping"
  | .stopped => "stopped"
  | .expunging => "expunging"
  | .destroying => "destroying"
  | .destroyed => "destroyed"
  | .error => "error"

/-- The managed virtual machine as observed from the provider. -/
structure VM where
  id : String
  name : String
  displayname : String
  state : VmState
  serviceofferingid : String
  deriving DecidableEq, Repr

structure Offering where
  id : String
  name : String
  deriving DecidableEq, Repr

/-- A template or ISO candidate (id, name, displaytext). -/
structure Template where
  id : String
  name : String
  displaytext : String
  deriving DecidableEq, Repr

structure Zone where
  id : String
  name : String
  deriving DecidableEq, Repr

structure Project where
  id : String
  name : String
  displaytext : String
  deriving DecidableEq, Repr

structure DiskOffering where
  id : String
  name : String
  deriving DecidableEq, Repr

structure Network where
  id : String
  name : String
  deriving DecidableEq, Repr

/-- The argument record assembled by create_vm for deployVirtualMachine. -/
structure DeployArgs where
  templateid : String
  zoneid : String
  serviceofferingid : String
  projectid : Option String
  networkids : String
  diskofferingid : Option String
  hypervisor : String
  name : String
  group : Option String
  keypair : Option String
  size : Option String
  userdata : Option String
  displayname : String
  securitygroupnames : String
  affinitygroupnames : String
  deriving DecidableEq, Repr

/-- Remote API calls issued by the module. -/
inductive Call where
  | listProjects
  | listZones
  | listHypervisors
  | listServiceOfferings
  | listTemplates
  | listIsos
  | listDiskOfferings
  | listNetworks
  | deployVirtualMachine (args : DeployArgs)
  | startVirtualMachine (id : String)
  | stopVirtualMachine (id : String)
  | rebootVirtualMachine (id : String)
  | destroyVirtualMachine (id : String) (expunge : Bool)
  | expungeVirtualMachine (id : String)
  | scaleVirtualMachine (id : String) (serviceofferingid : String)
  | queryAsyncJobResult (jobid : String)
  deriving DecidableEq, Repr

/-- Whether a call mutates remote state. -/
def Call.isMutating : Call → Bool
  | .deployVirtualMachine _ => true
  | .startVirtualMachine _ => true
  | .stopVirtualMachine _ => true
  | .rebootVirtualMachine _ => true
  | .destroyVirtualMachine _ _ => true
  | .expungeVirtualMachine _ => true
  | .scaleVirtualMachine _ _ => true
  | _ => false

/-- Whether a call is an async job status poll. -/
def Call.isPoll : Call → Bool
  | .queryAsyncJobResult _ => true
  | _ => false

/-- Whether a call is a stopVirtualMachine submission. -/
def Call.isStop : Call → Bool
  | .stopVirtualMachine _ => true
  | _ => false

/-- The remote environment: resolver candidate lists, plus the synchronous
errortext the provider attaches to a given mutating call (none models an
accepted operation). -/
structure Env where
  projects : List Project
  zones : List Zone
  hypervisors : List String
  serviceofferings : List Offering
  templates : List Template
  isos : List Template
  diskofferings : List DiskOffering
  networks : List Network
  errortextOf : Call → Option String

/-- The module parameters (argument_spec of main) together with the check
mode flag of the Ansible module. -/
structure ModuleParams where
  name : String
  group : Option String
  state : String
  service_offering : Option String
  template : Option String
  iso : Option String
  networks : Option (List String)
  disk_offering : Option String
  disk_size : Option String
  hypervisor : Option String
  security_groups : Option (List String)
  affinity_groups : Option (List String)
  project : Option String
  user_data : Option String
  zone : Option String
  poll_async : Bool
  ssh_key : Option String
  display_name : Option String
  check_mode : Bool

/-- Python truthiness of an optional string parameter: None and the empty
string are falsy. -/
def getStr : Option String → Option String
  | some s => if s = "" then none else some s
  | none => none

/-- Python string interpolation of a possibly absent value. -/
def pyStr : Option String → String
  | some s => s
  | none => "None"

/-- Python truthiness of an optional list parameter. -/
def truthyList : Option (List String) → Bool
  | some l => !l.isEmpty
  | none => false

/-- Base64 alphabet. -/
def b64Alphabet : String :=
  "ABCDEFGHIJKLMNOPQRSTUVWXYZabcdefghijklmnopqrstuvwxyz0123456789+/"

def b64Char (n : Nat) : Char := b64Alphabet.toList.getD n '='

/-- Encode a group of at most three bytes into four base64 characters. -/
def b64Group : List Nat → String
  | [a, b, c] => String.mk [b64Char (a / 4), b64Char (a % 4 * 16 + b / 16),
      b64Char (b % 16 * 4 + c / 64), b64Char (c % 64)]
  | [a, b] => String.mk [b64Char (a / 4), b64Char (a % 4 * 16 + b / 16),
      b64Char (b % 16 * 4), '=']
  | [a] => String.mk [b64Char (a / 4), b64Char (a % 4 * 16), '=', '=']
  | _ => ""

/-- Split a byte list into groups of three. -/
def chunks3 : List Nat → List (List Nat)
  | a :: b :: c :: rest => [a, b, c] :: chunks3 rest
  | [a, b] => [[a, b]]
  | [a] => [[a]]
  | [] => []

/-- base64.b64encode on the UTF-8 bytes of a string. -/
def base64encode (s : String) : String :=
  String.join ((chunks3 (s.toUTF8.toList.map (fun b => b.toNat))).map b64Group)

/-- Provider and module failure messages, as formatted by the source. -/
def failedMsg (e : String) : String := "Failed: " ++ sq ++ e ++ sq

def vmNotFoundMsg (n : String) : String :=
  "Virtual machine named " ++ sq ++ n ++ sq ++ " not found"

def notRestartedMsg (n : String) : String :=
  "Virtual machine named " ++ sq ++ n ++ sq ++ " not running, not restarted"

def inErrorMsg (n : String) : String :=
  "Virtual machine named " ++ sq ++ n ++ sq ++ " in error state."

/-- get_project_id: resolve the optional project selector against name,
displaytext or id; returns the resolved id (or none when no selector) and
the remote lookup calls made. -/
def get_project_id (env : Env) (p : ModuleParams) :
    Except String (Option String) × List Call :=
  match getStr p.project with
  | none => (.ok none, [])
  | some proj =>
    ( match env.projects.find?
          (fun x => proj == x.name || proj == x.displaytext || proj == x.id) with
      | some x => .ok (some x.id)
      | none => .error ("project " ++ sq ++ proj ++ sq ++ " not found"),
      [Call.listProjects] )

/-- get_zone_id: the zone list is fetched first; with no selector the first
zone is used (an empty listing is an unguarded index error in the source);
otherwise match on name or id. -/
def get_zone_id (env : Env) (p : ModuleParams) :
    Except String String × List Call :=
  ( match getStr p.zone with
    | none =>
      match env.zones with
      | [] => .error "IndexError: list index out of range"
      | z :: _ => .ok z.id
    | some zsel =>
      match env.zones.find? (fun z => zsel == z.name || zsel == z.id) with
      | some z => .ok z.id
      | none => .error ("zone " ++ sq ++ zsel ++ sq ++ " not found"),
    [Call.listZones] )

/-- get_hypervisor: with no selector the first listed hypervisor is used;
otherwise case-insensitive name match. -/
def get_hypervisor (env : Env) (p : ModuleParams) :
    Except String String × List Call :=
  ( match getStr p.hypervisor with
    | none =>
      match env.hypervisors with
      | [] => .error "IndexError: list index out of range"
      | h :: _ => .ok h
    | some hsel =>
      match env.hypervisors.find? (fun h => hsel.toLower == h.toLower) with
      | some h => .ok h
      | none => .error ("Hypervisor " ++ sq ++ hsel ++ sq ++ " not found"),
    [Call.listHypervisors] )

/-- get_service_offering_id: with no selector the id of the first listed
service offering is returned; otherwise match on name or id. -/
def get_service_offering_id (env : Env) (p : ModuleParams) :
    Except String String × List Call :=
  ( match env.serviceofferings with
    | [] => .error ("Service offering " ++ sq ++ pyStr p.service_offering
        ++ sq ++ " not found")
    | s0 :: rest =>
      match getStr p.service_offering with
      | none => .ok s0.id
      | some sel =>
        match (s0 :: rest).find? (fun s => sel == s.name || sel == s.id) with
        | some s => .ok s.id
        | none => .error ("Service offering " ++ sq ++ sel ++ sq ++ " not found"),
    [Call.listServiceOfferings] )

/-- get_template_or_iso_id: the both-or-neither validation happens before
any listing call; then the given selector is matched on displaytext, name
or id. -/
def get_template_or_iso_id (env : Env) (p : ModuleParams) :
    Except String String × List Call :=
  match getStr p.template, getStr p.iso with
  | none, none => (.error "Template or ISO is required.", [])
  | some _, some _ => (.error "Template are ISO are mutually exclusive.", [])
  | some t, none =>
    ( match env.templates.find?
          (fun x => t == x.displaytext || t == x.name || t == x.id) with
      | some x => .ok x.id
      | none => .error ("Template " ++ sq ++ t ++ sq ++ " not found"),
      [Call.listTemplates] )
  | none, some i =>
    ( match env.isos.find?
          (fun x => i == x.displaytext || i == x.name || i == x.id) with
      | some x => .ok x.id
      | none => .error ("ISO " ++ sq ++ i ++ sq ++ " not found"),
      [Call.listIsos] )

/-- get_disk_offering_id: none when no selector (no remote call); otherwise
match on name or id. -/
def get_disk_offering_id (env : Env) (p : ModuleParams) :
    Except String (Option String) × List Call :=
  match getStr p.disk_offering with
  | none => (.ok none, [])
  | some d =>
    ( match env.diskofferings.find? (fun x => d == x.name || d == x.id) with
      | some x => .ok (some x.id)
      | none => .error ("Disk offering " ++ sq ++ d ++ sq ++ " not found"),
      [Call.listDiskOfferings] )

/-- get_network_ids: none when the networks parameter is falsy; otherwise
resolve zone and project, list networks, and keep the ids of those whose
name or id is among the requested names. -/
def get_network_ids (env : Env) (p : ModuleParams) :
    Except String (Option (List String)) × List Call :=
  if truthyList p.networks = false then (.ok none, [])
  else
    let names := p.networks.getD []
    let (z, cz) := get_zone_id env p
    match z with
    | .error m => (.error m, cz)
    | .ok _ =>
      let (pr, cp) := get_project_id env p
      match pr with
      | .error m => (.error m, cz ++ cp)
      | .ok _ =>
        (.ok (some ((env.networks.filter
            (fun n => names.contains n.name || names.contains n.id)).map
              (fun n => n.id))),
         cz ++ cp ++ [Call.listNetworks])

/-- Execution context threaded through the lifecycle methods: the remote
world (at most one managed VM), the changed flag of the module result, and
the trace of remote calls issued so far. -/
structure Ctx where
  world : Option VM
  changed : Bool
  calls : List Call
  deriving Repr

def emitAll (cs : List Call) (k : Ctx) : Ctx := { k with calls := k.calls ++ cs }

def setChanged (k : Ctx) : Ctx := { k with changed := true }

/-- A Python value returned by a lifecycle method: None (or an empty dict),
a VM snapshot dict, or a raw API response dict. -/
inductive RVal where
  | noneV
  | vmV (v : VM)
  | respV (jobid : Option String) (errortext : Option String)
  deriving DecidableEq, Repr

/-- The in-band errortext field of a response, when present. -/
def RVal.errortext : RVal → Option String
  | .respV _ (some e) => some e
  | _ => none

/-- The id field of a VM snapshot dict, when present. -/
def RVal.idOf : RVal → Option String
  | .vmV v => some v.id
  | _ => none

/-- Effect of an accepted mutating operation on the remote VM, per the API
collaborator contract (no external interference). -/
def applyCall (c : Call) (w : Option VM) : Option VM :=
  match c, w with
  | .deployVirtualMachine a, _ =>
    some ⟨"vm-created", a.name, a.displayname, .running, a.serviceofferingid⟩
  | .startVirtualMachine i, some v =>
    if v.id = i then some { v with state := .running } else w
  | .stopVirtualMachine i, some v =>
    if v.id = i then some { v with state := .stopped } else w
  | .rebootVirtualMachine i, some v =>
    if v.id = i then some { v with state := .running } else w
  | .destroyVirtualMachine i false, some v =>
    if v.id = i then some { v with state := .destroyed } else w
  | .destroyVirtualMachine i true, some v =>
    if v.id = i then none else w
  | .expungeVirtualMachine i, some v =>
    if v.id = i then none else w
  | .scaleVirtualMachine i soid, some v =>
    if v.id = i then some { v with serviceofferingid := soid } else w
  | _, _ => w

/-- Submit a mutating call: the call is recorded; an injected errortext
yields an error response without a job id and leaves the world unchanged;
otherwise the operation is accepted, the world is updated, and the
response carries a job id. -/
def submit (env : Env) (c : Call) (k : Ctx) : RVal × Ctx :=
  let k := { k with calls := k.calls ++ [c] }
  match env.errortextOf c with
  | some e => (.respV none (some e), k)
  | none => (.respV (some "job-1") none, { k with world := applyCall c k.world })

/-- The typed instance of the async poller used by the lifecycle methods:
a response carrying a job id is polled once (recorded as a
queryAsyncJobResult call) and the terminal job result carries the updated
VM snapshot under the virtualmachine key when the VM still exists;
otherwise the submitted response is returned unchanged.  Values without a
job id pass through. -/
def poll_job_rv (r : RVal) (k : Ctx) : RVal × Ctx :=
  match r with
  | .respV (some j) _ =>
    let k := { k with calls := k.calls ++ [Call.queryAsyncJobResult j] }
    match k.world with
    | some v => (.vmV v, k)
    | none => (r, k)
  | _ => (r, k)

/-- Outcome of a lifecycle method: a returned value or a fail_json, each
with the final context. -/
inductive Res (α : Type) where
  | ok (val : α) (k : Ctx)
  | fail (msg : String) (k : Ctx)
  deriving Repr

def Res.ctx {α : Type} : Res α → Ctx
  | .ok _ k => k
  | .fail _ k => k

/-- stop_vm: fails when the VM is absent; submits a stop only when the
observed state is starting (the source condition also requires it to
differ from running, which is redundant); otherwise returns the VM
unchanged. -/
def stop_vm (env : Env) (p : ModuleParams) (k : Ctx) : Res RVal :=
  match k.world with
  | none => .fail (vmNotFoundMsg p.name) k
  | some v =>
    if v.state.lower == "starting" && v.state.lower != "running" then
      let k := setChanged k
      if p.check_mode then .ok (.vmV v) k
      else
        let (r, k) := submit env (Call.stopVirtualMachine v.id) k
        match r.errortext with
        | some e => .fail (failedMsg e) k
        | none =>
          if p.poll_async then
            let (r, k) := poll_job_rv r k
            .ok r k
          else .ok r k
    else .ok (.vmV v) k

/-- start_vm: fails when the VM is absent; submits a start when the
observed state is stopped or stopping; otherwise returns the VM
unchanged. -/
def start_vm (env : Env) (p : ModuleParams) (k : Ctx) : Res RVal :=
  match k.world with
  | none => .fail (vmNotFoundMsg p.name) k
  | some v =>
    if v.state.lower == "stopped" || v.state.lower == "stopping" then
      let k := setChanged k
      if p.check_mode then .ok (.vmV v) k
      else
        let (r, k) := submit env (Call.startVirtualMachine v.id) k
        match r.errortext with
        | some e => .fail (failedMsg e) k
        | none =>
          if p.poll_async then
            let (r, k) := poll_job_rv r k
            .ok r k
          else .ok r k
    else .ok (.vmV v) k

/-- restart_vm: submits a reboot when the observed state is running or
starting (the synchronous response is not checked for errortext); fails
when the state is stopping or stopped; returns the VM unchanged in any
other state. -/
def restart_vm (env : Env) (p : ModuleParams) (k : Ctx) : Res RVal :=
  match k.world with
  | none => .fail (vmNotFoundMsg p.name) k
  | some v =>
    if v.state.lower == "running" || v.state.lower == "starting" then
      let k := setChanged k
      if p.check_mode then .ok (.vmV v) k
      else
        let (r, k) := submit env (Call.rebootVirtualMachine v.id) k
        if p.poll_async then
          let (r, k) := poll_job_rv r k
          .ok r k
        else .ok r k
    else if v.state.lower == "stopping" || v.state.lower == "stopped" then
      .fail (notRestartedMsg p.name) k
    else .ok (.vmV v) k

/-- remove_vm: submits a non-expunging destroy unless the observed state is
already expunging, destroying or destroyed. -/
def remove_vm (env : Env) (p : ModuleParams) (k : Ctx) : Res RVal :=
  match k.world with
  | none => .ok .noneV k
  | some v =>
    if !(v.state.lower == "expunging" || v.state.lower == "destroying"
        || v.state.lower == "destroyed") then
      let k := setChanged k
      if p.check_mode then .ok (.vmV v) k
      else
        let (res, k) := submit env (Call.destroyVirtualMachine v.id false) k
        match res.errortext with
        | some e => .fail (failedMsg e) k
        | none =>
          if p.poll_async then
            let (r, k) := poll_job_rv res k
            .ok r k
          else .ok (.vmV v) k
    else .ok (.vmV v) k

/-- expunge_vm: an expunge-only call when the state is destroying or
destroyed; a destroy with the expunge flag when the state is not
expunging; otherwise a no-op.  The poll step runs outside the check-mode
guard, on the (possibly empty) response. -/
def expunge_vm (env : Env) (p : ModuleParams) (k : Ctx) : Res RVal :=
  match k.world with
  | none => .ok .noneV k
  | some v =>
    let rk : RVal × Ctx :=
      if v.state.lower == "destroying" || v.state.lower == "destroyed" then
        let k := setChanged k
        if p.check_mode then (.noneV, k)
        else submit env (Call.expungeVirtualMachine v.id) k
      else if !(v.state.lower == "expunging") then
        let k := setChanged k
        if p.check_mode then (.noneV, k)
        else submit env (Call.destroyVirtualMachine v.id true) k
      else (.noneV, k)
    let res := rk.1
    let k := rk.2
    match res.errortext with
    | some e => .fail (failedMsg e) k
    | none =>
      if p.poll_async then
        let (r, k) := poll_job_rv res k
        .ok r k
      else .ok (.vmV v) k

/-- scale_vm: when the VM exists and its service offering differs from the
resolved one, capture the current state, call stop_vm (whose own guard
only fires for a starting VM), poll, submit the in-place offering change
(the response is discarded without an errortext check), and call start_vm
followed by a poll when the captured state was running. -/
def scale_vm (env : Env) (p : ModuleParams) (k : Ctx) : Res RVal :=
  match k.world with
  | none => .ok .noneV k
  | some v =>
    let soc := get_service_offering_id env p
    let k := emitAll soc.2 k
    match soc.1 with
    | .error m => .fail m k
    | .ok soid =>
      if v.serviceofferingid != soid then
        let k := setChanged k
        if p.check_mode then .ok (.vmV v) k
        else
          let vm_state := v.state.lower
          match stop_vm env p k with
          | .fail m k => .fail m k
          | .ok r k =>
            let (r, k) := poll_job_rv r k
            match r.idOf with
            | none => .fail "KeyError: id" k
            | some vid =>
              let sc := submit env (Call.scaleVirtualMachine vid soid) k
              let k := sc.2
              if vm_state == "running" then
                match start_vm env p k with
                | .fail m k => .fail m k
                | .ok r k =>
                  let (r, k) := poll_job_rv r k
                  .ok r k
              else .ok r k
      else .ok (.vmV v) k

/-- The deployVirtualMachine argument record create_vm assembles from the
module parameters and the resolved identifiers: networks joined with
commas, user data base64 encoded, display name defaulting to the resource
name, group name lists joined into possibly empty strings. -/
def deployArgsOf (p : ModuleParams) (templateid zoneid soid : String)
    (pid : Option String) (ids : List String) (doid : Option String)
    (hyp : String) : DeployArgs :=
  { templateid := templateid
    zoneid := zoneid
    serviceofferingid := soid
    projectid := pid
    networkids := String.intercalate "," ids
    diskofferingid := doid
    hypervisor := hyp
    name := p.name
    group := p.group
    keypair := p.ssh_key
    size := p.disk_size
    userdata := (getStr p.user_data).map base64encode
    displayname :=
      match getStr p.display_name with
      | some d => d
      | none => p.name
    securitygroupnames :=
      if truthyList p.security_groups then
        String.intercalate "," (p.security_groups.getD [])
      else ""
    affinitygroupnames :=
      if truthyList p.affinity_groups then
        String.intercalate "," (p.affinity_groups.getD [])
      else "" }

/-- create_vm: when the VM is absent, mark changed, resolve the deployment
arguments in source order (template or ISO first, then zone, service
offering, project, networks, disk offering, hypervisor), assemble the
argument record (networks joined with commas; joining an absent network
list is an unguarded type error in the source; user data base64 encoded;
display name defaulting to the resource name; group name lists joined to
possibly empty strings), and submit the deploy unless in check mode. -/
def create_vm (env : Env) (p : ModuleParams) (k : Ctx) : Res RVal :=
  match k.world with
  | some v => .ok (.vmV v) k
  | none =>
    let k := setChanged k
    let tc := get_template_or_iso_id env p
    let k := emitAll tc.2 k
    match tc.1 with
    | .error m => .fail m k
    | .ok templateid =>
      let zc := get_zone_id env p
      let k := emitAll zc.2 k
      match zc.1 with
      | .error m => .fail m k
      | .ok zoneid =>
        let soc := get_service_offering_id env p
        let k := emitAll soc.2 k
        match soc.1 with
        | .error m => .fail m k
        | .ok soid =>
          let pc := get_project_id env p
          let k := emitAll pc.2 k
          match pc.1 with
          | .error m => .fail m k
          | .ok pid =>
            let nc := get_network_ids env p
            let k := emitAll nc.2 k
            match nc.1 with
            | .error m => .fail m k
            | .ok nids =>
              match nids with
              | none => .fail "TypeError: can only join an iterable" k
              | some ids =>
                let dc := get_disk_offering_id env p
                let k := emitAll dc.2 k
                match dc.1 with
                | .error m => .fail m k
                | .ok doid =>
                  let hc := get_hypervisor env p
                  let k := emitAll hc.2 k
                  match hc.1 with
                  | .error m => .fail m k
                  | .ok hyp =>
                    let args : DeployArgs :=
                      deployArgsOf p templateid zoneid soid pid ids doid hyp
                    if p.check_mode then .ok .noneV k
                    else
                      let dep := submit env (Call.deployVirtualMachine args) k
                      let r := dep.1
                      let k := dep.2
                      match r.errortext with
                      | some e => .fail (failedMsg e) k
                      | none =>
                        if p.poll_async then
                          let (r, k) := poll_job_rv r k
                          .ok r k
                        else .ok r k

/-- Result of one module invocation: the outcome (exit_json or fail_json
message), the reported changed flag, the final remote world, and the trace
of remote calls. -/
structure RunResult where
  outcome : Except String Unit
  changed : Bool
  world : Option VM
  calls : List Call
  deriving Repr

/-- The tail of main: after the dispatched method returns, a VM snapshot
reported in the error state fails the invocation. -/
def finish (p : ModuleParams) : Res RVal → RunResult
  | .fail m k => ⟨.error m, k.changed, k.world, k.calls⟩
  | .ok r k =>
    match r with
    | .vmV v =>
      if v.state = VmState.error then
        ⟨.error (inErrorMsg p.name), k.changed, k.world, k.calls⟩
      else ⟨.ok (), k.changed, k.world, k.calls⟩
    | _ => ⟨.ok (), k.changed, k.world, k.calls⟩

/-- The dispatch of main over the requested state, applied to the observed
VM: absent and destroyed remove; expunged expunges; present and created
create when the VM is absent and scale otherwise; stopped and halted stop;
started, running and booted start; restarted and rebooted restart; any
other state string leaves the observed VM untouched. -/
def dispatchStep (env : Env) (p : ModuleParams) (k : Ctx) : Res RVal :=
  if p.state == "absent" || p.state == "destroyed" then remove_vm env p k
  else if p.state == "expunged" then expunge_vm env p k
  else if p.state == "present" || p.state == "created" then
    match k.world with
    | none => create_vm env p k
    | some _ => scale_vm env p k
  else if p.state == "stopped" || p.state == "halted" then stop_vm env p k
  else if p.state == "started" || p.state == "running"
      || p.state == "booted" then start_vm env p k
  else if p.state == "restarted" || p.state == "rebooted" then
    restart_vm env p k
  else .ok (match k.world with | some v => .vmV v | none => .noneV) k

/-- One module invocation: the dispatch applied to a fresh context holding
the observed VM, followed by the error state check of main. -/
def reconcile (env : Env) (p : ModuleParams) (w : Option VM) : RunResult :=
  finish p (dispatchStep env p ⟨w, false, []⟩)

/-- Calls that neither mutate remote state nor poll a job: the resolver
lookups. -/
def lookupFree (l : List Call) : Bool :=
  l.all (fun c => !c.isMutating && !c.isPoll)

/-- A Python value, with just enough structure for the generic async job
poller: strings, numbers and dictionaries. -/
inductive PVal where
  | str (s : String)
  | num (n : Int)
  | dict (fields : List (String × PVal))
  deriving Repr

/-- Dictionary lookup. -/
def PVal.get : PVal → String → Option PVal
  | .dict fs, key => (fs.find? (fun kv => kv.fst == key)).map (fun kv => kv.snd)
  | _, _ => none

/-- Python membership test key in d. -/
def PVal.hasKey (v : PVal) (k : String) : Bool := (v.get k).isSome

/-- Python string interpolation of a value (the dictionary case is not
exercised by the module). -/
def pyFormat : PVal → String
  | .str s => s
  | .num n => toString n
  | .dict _ => "dict"

/-- Python truth of jobstatus compared against 0: a number is nonzero; any
non-numeric value compares unequal to 0. -/
def pvalNeZero : PVal → Bool
  | .num n => n != 0
  | _ => true

/-- The condition under which the polling loop of _poll_job handles a query
result as terminal: jobstatus is present and nonzero, and jobresult is
present. -/
def isTerminalPoll (r : PVal) : Bool :=
  match r.get "jobstatus" with
  | none => false
  | some js => pvalNeZero js && r.hasKey "jobresult"

/-- The condition under which the polling loop sleeps and polls again:
jobstatus is present (its absence is an unguarded key error in the source)
but the terminal condition does not hold. -/
def continuesPolling (r : PVal) : Bool :=
  match r.get "jobstatus" with
  | none => false
  | some js => !(pvalNeZero js && r.hasKey "jobresult")

/-- Outcome of _poll_job: the returned value, a fail_json, exhaustion of
the supplied query results while the loop would continue (the source loop
has no bound), or an unguarded key error. -/
inductive PollOutcome where
  | done (v : PVal)
  | failedMsg (msg : String)
  | pending
  | crash (msg : String)
  deriving Repr

/-- The polling loop body of _poll_job over the successive
queryAsyncJobResult responses. -/
def loopPolls (job : PVal) (key : Option String) : List PVal → PollOutcome
  | [] => .pending
  | res :: rest =>
    match res.get "jobstatus", res.get "jobresult" with
    | none, _ => .crash "KeyError: jobstatus"
    | some js, some jr =>
      if pvalNeZero js then
        match jr.get "errortext" with
        | some e => .failedMsg ("Failed: " ++ sq ++ pyFormat e ++ sq)
        | none =>
          match key with
          | some k =>
            match jr.get k with
            | some v => .done v
            | none => .done job
          | none => .done job
      else loopPolls job key rest
    | some _, none => loopPolls job key rest

/-- _poll_job: a response without a jobid is returned unchanged; otherwise
job status is queried until the terminal condition holds, and the terminal
jobresult determines the outcome. -/
def poll_job (job : PVal) (key : Option String) (polls : List PVal) :
    PollOutcome :=
  if job.hasKey "jobid" then loopPolls job key polls
  else .done job

/-- The handling _poll_job applies to the terminal jobresult: an errortext
fails with the provider message verbatim; otherwise the requested field,
when present, becomes the returned snapshot; otherwise the submitted
response is returned unchanged. -/
def terminalResult (job : PVal) (key : Option String) (jr : PVal) :
    PollOutcome :=
  match jr.get "errortext" with
  | some e => .failedMsg ("Failed: " ++ sq ++ pyFormat e ++ sq)
  | none =>
    match key with
    | some k =>
      match jr.get k with
      | some v => .done v
      | none => .done job
    | none => .done job

/-- A concrete remote environment with every operation accepted, used for
concrete evaluations of the reconciliation. -/
def envA : Env :=
  { projects := []
    zones := [⟨"z1", "zone1"⟩]
    hypervisors := ["KVM"]
    serviceofferings := [⟨"so-2", "small"⟩, ⟨"so-1", "tiny"⟩]
    templates := [⟨"t1", "Debian", "Linux Debian 7 64-bit"⟩]
    isos := [⟨"i1", "DebianIso", "Linux Debian 7 ISO"⟩]
    diskofferings := []
    networks := [⟨"n1", "net1"⟩]
    errortextOf := fun _ => none }

/-- Concrete module parameters requesting the present state with default
service offering selection. -/
def pA : ModuleParams :=
  { name := "web-vm-1"
    group := none
    state := "present"
    service_offering := none
    template := some "Debian"
    iso := none
    networks := some ["net1"]
    disk_offering := none
    disk_size := none
    hypervisor := none
    security_groups := none
    affinity_groups := none
    project := none
    user_data := none
    zone := none
    poll_async := true
    ssh_key := none
    display_name := none
    check_mode := false }

/-- A concrete running VM whose service offering differs from the first
listed one. -/
def vmRunningA : VM := ⟨"vm-1", "web-vm-1", "web-vm-1", .running, "so-1"⟩

/-- The concrete environment with the provider rejecting reboots with an
in-band errortext. -/
def envRebootErr : Env :=
  { envA with
    errortextOf := fun c =>
      match c with
      | .rebootVirtualMachine _ => some "boom"
      | _ => none }

/-- A concrete asynchronous submission response carrying a job id. -/
def jobEx : PVal := .dict [("jobid", .str "j-1")]

/-- A concrete pending job query result. -/
def pendingEx : PVal := .dict [("jobstatus", .num 0)]

/-- A concrete VM snapshot payload. -/
def snapEx : PVal := .dict [("id", .str "vm-1"), ("state", .str "Running")]

/-- A concrete terminal job result payload holding the snapshot. -/
def jrEx : PVal := .dict [("virtualmachine", snapEx)]

/-- A concrete terminal job query result. -/
def termEx : PVal := .dict [("jobstatus", .num 1), ("jobresult", jrEx)]

end CsVm

namespace CsVm

/-- C1: a scale on an existing VM observed Running submits the in-place
offering change without ever submitting a stop: the stop_vm guard matches
only the starting state, so the claimed stop and start bracket of the
scale protocol never happens for a Running VM, contradicting the claim and
the documentation of the module.  The run nevertheless succeeds and the VM
remains Running. -/
theorem c1_scale_running_vm_never_stopped :
    (reconcile envA pA (some vmRunningA)).outcome = Except.ok ()
    ∧ (reconcile envA pA (some vmRunningA)).changed = true
    ∧ (reconcile envA pA (some vmRunningA)).calls =
        [Call.listServiceOfferings, Call.scaleVirtualMachine "vm-1" "so-2"]
    ∧ ((reconcile envA pA (some vmRunningA)).calls.any Call.isStop) = false
    ∧ (reconcile envA pA (some vmRunningA)).world =
        some { vmRunningA with serviceofferingid := "so-2" } :=
  ⟨rfl, rfl, rfl, rfl, rfl⟩

/-- C2: with desired state stopped or halted on an existing VM, a stop is
submitted if and only if the observed state is Starting; in every other
state the invocation issues no remote call at all, reports changed false,
and leaves the remote VM untouched. -/
theorem c2_stop_desired_submits_iff_starting
    (env : Env) (p : ModuleParams) (v : VM)
    (hstate : p.state = "stopped" ∨ p.state = "halted")
    (hmode : p.check_mode = false) :
    (((reconcile env p (some v)).calls.any Call.isStop) = true
        ↔ v.state = VmState.starting)
    ∧ (v.state ≠ VmState.starting →
        (reconcile env p (some v)).changed = false
        ∧ (reconcile env p (some v)).calls = []
        ∧ (reconcile env p (some v)).world = some v) := by
  rcases hstate with h | h <;>
    cases v <;> rename_i vid vname vdn vstate vso <;> cases vstate <;>
    simp only [reconcile, dispatchStep, h, hmode, stop_vm, submit, poll_job_rv, finish,
      VmState.lower, setChanged, RVal.errortext] <;>
    cases henv : env.errortextOf (Call.stopVirtualMachine vid) <;>
    cases hpa : p.poll_async <;>
    simp [henv, hpa, Call.isStop, Call.isMutating, applyCall]

/-- Witness for C2 at a concrete input: for a starting VM and desired state
stopped, a stop is submitted. -/
theorem c2_stop_desired_submits_iff_starting_witness :
    ((reconcile envA { pA with state := "stopped" }
        (some { vmRunningA with state := .starting })).calls.any
          Call.isStop) = true :=
  (c2_stop_desired_submits_iff_starting envA { pA with state := "stopped" }
    { vmRunningA with state := .starting } (Or.inl rfl) rfl).1.mpr rfl

/-- C6: with desired state restarted or rebooted on an existing VM, an
observed state of Stopping or Stopped fails the invocation with the
invalid transition message and issues no remote call at all, while an
observed state of Running or Starting submits a reboot, and awaits it by
polling when the operation is accepted and async polling is on. -/
theorem c6_restart_guard (env : Env) (p : ModuleParams) (v : VM)
    (hstate : p.state = "restarted" ∨ p.state = "rebooted")
    (hmode : p.check_mode = false) :
    ((v.state = VmState.stopping ∨ v.state = VmState.stopped) →
      (reconcile env p (some v)).outcome = Except.error (notRestartedMsg p.name)
      ∧ (reconcile env p (some v)).calls = [])
    ∧ ((v.state = VmState.running ∨ v.state = VmState.starting) →
      (Call.rebootVirtualMachine v.id) ∈ (reconcile env p (some v)).calls
      ∧ (env.errortextOf (Call.rebootVirtualMachine v.id) = none →
          p.poll_async = true →
          ((reconcile env p (some v)).calls.any Call.isPoll) = true)) := by
  rcases hstate with h | h <;>
    cases v <;> rename_i vid vname vdn vstate vso <;> cases vstate <;>
    simp only [reconcile, dispatchStep, h, hmode, restart_vm, submit, poll_job_rv, finish,
      VmState.lower, setChanged, RVal.errortext] <;>
    cases henv : env.errortextOf (Call.rebootVirtualMachine vid) <;>
    cases hpa : p.poll_async <;>
    simp [henv, hpa, Call.isPoll, applyCall]

/-- Witness for C6 at a concrete input: restarting a stopped VM fails with
the invalid transition message and issues no remote call, and restarting a
running VM submits a reboot. -/
theorem c6_restart_guard_witness :
    ((reconcile envA { pA with state := "restarted" }
        (some { vmRunningA with state := .stopped })).outcome =
      Except.error (notRestartedMsg "web-vm-1")
    ∧ (reconcile envA { pA with state := "restarted" }
        (some { vmRunningA with state := .stopped })).calls = [])
    ∧ ((Call.rebootVirtualMachine "vm-1") ∈
        (reconcile envA { pA with state := "restarted" }
          (some vmRunningA)).calls) :=
  ⟨(c6_restart_guard envA { pA with state := "restarted" }
      { vmRunningA with state := .stopped } (Or.inl rfl) rfl).1 (Or.inr rfl),
   ((c6_restart_guard envA { pA with state := "restarted" }
      vmRunningA (Or.inl rfl) rfl).2 (Or.inl rfl)).1⟩

/-- C7: with desired state present or created and the VM absent, supplying
both a template and an ISO selector fails with the mutual exclusivity
message, and supplying neither fails with the required message, in both
cases before any remote call is made by the reconciliation (the call trace
is empty), in check mode as well as in normal mode. -/
theorem c7_template_iso_mutual_exclusivity (env : Env) (p : ModuleParams)
    (hstate : p.state = "present" ∨ p.state = "created") :
    (∀ t i, getStr p.template = some t → getStr p.iso = some i →
      (reconcile env p none).outcome =
        Except.error "Template are ISO are mutually exclusive."
      ∧ (reconcile env p none).calls = [])
    ∧ (getStr p.template = none → getStr p.iso = none →
      (reconcile env p none).outcome =
        Except.error "Template or ISO is required."
      ∧ (reconcile env p none).calls = []) := by
  rcases hstate with h | h <;>
    constructor <;>
    first
    | intro t i ht hi
      simp [reconcile, dispatchStep, h, create_vm, get_template_or_iso_id, ht, hi, finish,
        emitAll, setChanged]
    | intro ht hi
      simp [reconcile, dispatchStep, h, create_vm, get_template_or_iso_id, ht, hi, finish,
        emitAll, setChanged]

/-- Witness for C7 at a concrete input: both selectors set fails with the
mutual exclusivity message and an empty call trace. -/
theorem c7_template_iso_mutual_exclusivity_witness :
    (reconcile envA { pA with iso := some "DebianIso" } none).outcome =
      Except.error "Template are ISO are mutually exclusive."
    ∧ (reconcile envA { pA with iso := some "DebianIso" } none).calls = [] :=
  (c7_template_iso_mutual_exclusivity envA { pA with iso := some "DebianIso" }
    (Or.inl rfl)).1 "Debian" "DebianIso" rfl rfl

/-- C8: with an existing VM, desired state absent or destroyed submits a
non-expunging destroy exactly when the observed state is not Expunging,
Destroying or Destroyed, and otherwise performs no remote call and reports
changed false; desired state expunged submits an expunge-only call exactly
when the observed state is Destroying or Destroyed, submits a destroy with
the expunge flag exactly when the observed state is none of Expunging,
Destroying and Destroyed, and an observed state of Expunging performs no
remote call and reports changed false. -/
theorem c8_destroy_expunge_transitions (env : Env) (p : ModuleParams) (v : VM)
    (hmode : p.check_mode = false) :
    ((p.state = "absent" ∨ p.state = "destroyed") →
      (((Call.destroyVirtualMachine v.id false) ∈
          (reconcile env p (some v)).calls)
        ↔ ¬(v.state = VmState.expunging ∨ v.state = VmState.destroying
            ∨ v.state = VmState.destroyed))
      ∧ ((v.state = VmState.expunging ∨ v.state = VmState.destroying
            ∨ v.state = VmState.destroyed) →
          (reconcile env p (some v)).changed = false
          ∧ (reconcile env p (some v)).calls = []
          ∧ (reconcile env p (some v)).world = some v))
    ∧ (p.state = "expunged" →
      (((Call.expungeVirtualMachine v.id) ∈ (reconcile env p (some v)).calls)
        ↔ (v.state = VmState.destroying ∨ v.state = VmState.destroyed))
      ∧ (((Call.destroyVirtualMachine v.id true) ∈
          (reconcile env p (some v)).calls)
        ↔ ¬(v.state = VmState.expunging ∨ v.state = VmState.destroying
            ∨ v.state = VmState.destroyed))
      ∧ (v.state = VmState.expunging →
          (reconcile env p (some v)).changed = false
          ∧ (reconcile env p (some v)).calls = []
          ∧ (reconcile env p (some v)).world = some v)) := by
  constructor
  · rintro (h | h) <;>
      cases v <;> rename_i vid vname vdn vstate vso <;> cases vstate <;>
      simp only [reconcile, dispatchStep, h, hmode, remove_vm, submit, poll_job_rv, finish,
        VmState.lower, setChanged, RVal.errortext] <;>
      cases henv : env.errortextOf (Call.destroyVirtualMachine vid false) <;>
      cases hpa : p.poll_async <;>
      simp [henv, hpa, applyCall]
  · intro h
    cases v
    rename_i vid vname vdn vstate vso
    cases vstate <;>
      simp only [reconcile, dispatchStep, h, hmode, expunge_vm, submit, poll_job_rv, finish,
        VmState.lower, setChanged, RVal.errortext] <;>
      cases henvE : env.errortextOf (Call.expungeVirtualMachine vid) <;>
      cases henvD : env.errortextOf (Call.destroyVirtualMachine vid true) <;>
      cases hpa : p.poll_async <;>
      simp [henvE, henvD, hpa, applyCall]

/-- Witness for C8 at a concrete input: a running VM with desired state
absent gets a non-expunging destroy submitted, and with desired state
expunged gets a destroy with the expunge flag submitted. -/
theorem c8_destroy_expunge_transitions_witness :
    ((Call.destroyVirtualMachine "vm-1" false) ∈
      (reconcile envA { pA with state := "absent" } (some vmRunningA)).calls)
    ∧ ((Call.destroyVirtualMachine "vm-1" true) ∈
      (reconcile envA { pA with state := "expunged" }
        (some vmRunningA)).calls) :=
  ⟨((c8_destroy_expunge_transitions envA { pA with state := "absent" }
      vmRunningA rfl).1 (Or.inl rfl)).1.mpr (by decide),
   (((c8_destroy_expunge_transitions envA { pA with state := "expunged" }
      vmRunningA rfl).2 rfl).2.1).mpr (by decide)⟩

/-- Unfolding equation for a polling step on a query result. -/
theorem loopPolls_cons (job : PVal) (key : Option String) (res : PVal)
    (rest : List PVal) :
    loopPolls job key (res :: rest) =
      (match res.get "jobstatus", res.get "jobresult" with
       | none, _ => .crash "KeyError: jobstatus"
       | some js, some jr =>
         if pvalNeZero js then
           match jr.get "errortext" with
           | some e => .failedMsg ("Failed: " ++ sq ++ pyFormat e ++ sq)
           | none =>
             match key with
             | some k =>
               match jr.get k with
               | some v => .done v
               | none => .done job
             | none => .done job
         else loopPolls job key rest
       | some _, none => loopPolls job key rest) := rfl

/-- The polling loop ignores any prefix of query results on which it would
sleep and poll again. -/
theorem loopPolls_append_pending (job : PVal) (key : Option String)
    (pend rest : List PVal)
    (hpend : ∀ r ∈ pend, continuesPolling r = true) :
    loopPolls job key (pend ++ rest) = loopPolls job key rest := by
  induction pend with
  | nil => simp
  | cons r pend ih =>
    have hr := hpend r (List.mem_cons_self r pend)
    have h' : ∀ x ∈ pend, continuesPolling x = true :=
      fun x hx => hpend x (List.mem_cons_of_mem r hx)
    rw [List.cons_append, loopPolls_cons]
    cases hjs : r.get "jobstatus" with
    | none => simp [continuesPolling, hjs] at hr
    | some js =>
      simp only [continuesPolling, hjs] at hr
      cases hjrr : r.get "jobresult" with
      | none => simp [hjs, hjrr, ih h']
      | some jr0 =>
        have hz : pvalNeZero js = false := by
          simp [PVal.hasKey, hjrr] at hr
          exact hr
        simp [hjs, hjrr, hz, ih h']

/-- The polling loop applies the terminal handling to the first query
result satisfying the terminal condition. -/
theorem loopPolls_terminal (job term jr : PVal) (key : Option String)
    (rest : List PVal) (hterm : isTerminalPoll term = true)
    (hjr : term.get "jobresult" = some jr) :
    loopPolls job key (term :: rest) = terminalResult job key jr := by
  cases hjs : term.get "jobstatus" with
  | none => simp [isTerminalPoll, hjs] at hterm
  | some js =>
    have hnz : pvalNeZero js = true := by
      simp [isTerminalPoll, hjs, PVal.hasKey, hjr] at hterm
      exact hterm
    rw [loopPolls_cons]
    simp [hjs, hjr, hnz, terminalResult]

/-- C3: the async poller returns a response without a job identifier
unchanged; with a job identifier it queries job status until the result is
no longer pending (skipping every pending query result), and the first
terminal result determines the outcome: an errortext fails with the
provider message verbatim, otherwise the requested field of the job
result, when present, is returned as the new snapshot, and the submitted
response is returned unchanged when the field is absent. -/
theorem c3_async_poller_contract (job term jr : PVal) (key : Option String)
    (polls pend rest : List PVal)
    (hsplit : polls = pend ++ term :: rest)
    (hpend : ∀ r ∈ pend, continuesPolling r = true)
    (hterm : isTerminalPoll term = true)
    (hjr : term.get "jobresult" = some jr) :
    (job.hasKey "jobid" = false → poll_job job key polls = .done job)
    ∧ (job.hasKey "jobid" = true →
        poll_job job key polls = terminalResult job key jr) := by
  constructor
  · intro h
    simp [poll_job, h]
  · intro h
    subst hsplit
    simp only [poll_job, h, if_true]
    rw [loopPolls_append_pending job key pend (term :: rest) hpend,
      loopPolls_terminal job term jr key rest hterm hjr]

/-- Witness for C3 at a concrete input: a submitted job polled through one
pending result and one terminal result carrying the virtualmachine field
returns that field as the snapshot. -/
theorem c3_async_poller_contract_witness :
    poll_job jobEx (some "virtualmachine") [pendingEx, termEx] =
      PollOutcome.done snapEx :=
  ((c3_async_poller_contract jobEx termEx jrEx (some "virtualmachine")
      [pendingEx, termEx] [pendingEx] [] rfl
      (by
        intro r hr
        rcases List.mem_singleton.mp hr with rfl
        rfl)
      rfl rfl).2 rfl).trans rfl

/-- Counterexample to C9: a reboot whose synchronous response carries an
in-band errortext does not fail the invocation: restart_vm never inspects
the response for errortext, so the run exits successfully even though the
provider rejected the operation. -/
theorem c9_counterexample_reboot_errortext_ignored :
    (reconcile envRebootErr { pA with state := "restarted" }
      (some vmRunningA)).outcome = Except.ok ()
    ∧ (reconcile envRebootErr { pA with state := "restarted" }
        (some vmRunningA)).calls = [Call.rebootVirtualMachine "vm-1"]
    ∧ envRebootErr.errortextOf (Call.rebootVirtualMachine "vm-1") =
        some "boom" :=
  ⟨rfl, rfl, rfl⟩

/-- C9 amended: for the deploy, start, stop, destroy and expunge
operations, a synchronous response carrying an in-band errortext fails the
invocation with the provider message; the reboot and scale responses are
not checked (the scale response is discarded entirely). -/
theorem c9_amended_sync_errortext_normalized (env : Env) (p : ModuleParams)
    (v : VM) (e : String) (hmode : p.check_mode = false) :
    ((p.state = "stopped" ∨ p.state = "halted") →
      v.state = VmState.starting →
      env.errortextOf (Call.stopVirtualMachine v.id) = some e →
      (reconcile env p (some v)).outcome = Except.error (failedMsg e))
    ∧ ((p.state = "started" ∨ p.state = "running" ∨ p.state = "booted") →
      (v.state = VmState.stopped ∨ v.state = VmState.stopping) →
      env.errortextOf (Call.startVirtualMachine v.id) = some e →
      (reconcile env p (some v)).outcome = Except.error (failedMsg e))
    ∧ ((p.state = "absent" ∨ p.state = "destroyed") →
      ¬(v.state = VmState.expunging ∨ v.state = VmState.destroying
          ∨ v.state = VmState.destroyed) →
      env.errortextOf (Call.destroyVirtualMachine v.id false) = some e →
      (reconcile env p (some v)).outcome = Except.error (failedMsg e))
    ∧ (p.state = "expunged" →
      ((v.state = VmState.destroying ∨ v.state = VmState.destroyed) →
        env.errortextOf (Call.expungeVirtualMachine v.id) = some e →
        (reconcile env p (some v)).outcome = Except.error (failedMsg e))
      ∧ (¬(v.state = VmState.expunging ∨ v.state = VmState.destroying
            ∨ v.state = VmState.destroyed) →
        env.errortextOf (Call.destroyVirtualMachine v.id true) = some e →
        (reconcile env p (some v)).outcome = Except.error (failedMsg e)))
    ∧ (∀ tid zid soid pid ids doid hyp,
      (p.state = "present" ∨ p.state = "created") →
      (get_template_or_iso_id env p).1 = Except.ok tid →
      (get_zone_id env p).1 = Except.ok zid →
      (get_service_offering_id env p).1 = Except.ok soid →
      (get_project_id env p).1 = Except.ok pid →
      (get_network_ids env p).1 = Except.ok (some ids) →
      (get_disk_offering_id env p).1 = Except.ok doid →
      (get_hypervisor env p).1 = Except.ok hyp →
      env.errortextOf (Call.deployVirtualMachine
        (deployArgsOf p tid zid soid pid ids doid hyp)) = some e →
      (reconcile env p none).outcome = Except.error (failedMsg e)) := by
  refine ⟨?_, ?_, ?_, ?_, ?_⟩
  · rintro (h | h) hv herr <;>
      cases v <;> rename_i vid vname vdn vstate vso <;>
      cases hv <;>
      simp [reconcile, dispatchStep, h, hmode, stop_vm, submit, poll_job_rv, finish,
        VmState.lower, setChanged, RVal.errortext, herr]
  · rintro (h | h | h) hv herr <;>
      cases v <;> rename_i vid vname vdn vstate vso <;>
      rcases hv with hv | hv <;> cases hv <;>
      simp [reconcile, dispatchStep, h, hmode, start_vm, submit, poll_job_rv, finish,
        VmState.lower, setChanged, RVal.errortext, herr]
  · rintro (h | h) hv herr <;>
      cases v <;> rename_i vid vname vdn vstate vso <;>
      cases vstate <;>
      simp_all [reconcile, dispatchStep, h, hmode, remove_vm, submit, poll_job_rv, finish,
        VmState.lower, setChanged, RVal.errortext]
  · intro h
    constructor
    · intro hv herr
      cases v
      rename_i vid vname vdn vstate vso
      rcases hv with hv | hv <;> cases hv <;>
        simp [reconcile, dispatchStep, h, hmode, expunge_vm, submit, poll_job_rv, finish,
          VmState.lower, setChanged, RVal.errortext, herr]
    · intro hv herr
      cases v
      rename_i vid vname vdn vstate vso
      cases vstate <;>
        simp_all [reconcile, dispatchStep, h, hmode, expunge_vm, submit, poll_job_rv, finish,
          VmState.lower, setChanged, RVal.errortext]
  · intro tid zid soid pid ids doid hyp hstate h1 h2 h3 h4 h5 h6 h7 herr
    rcases hstate with h | h <;>
      simp [reconcile, dispatchStep, h, hmode, create_vm, h1, h2, h3, h4, h5, h6, h7,
        submit, poll_job_rv, finish, setChanged, emitAll, RVal.errortext,
        herr]

/-- Witness for the amended C9 at a concrete input: a destroy rejected
with an errortext fails the invocation with the provider message. -/
theorem c9_amended_sync_errortext_normalized_witness :
    (reconcile
      { envA with
        errortextOf := fun c =>
          match c with
          | .destroyVirtualMachine _ _ => some "no permission"
          | _ => none }
      { pA with state := "absent" } (some vmRunningA)).outcome
      = Except.error (failedMsg "no permission") :=
  (c9_amended_sync_errortext_normalized
    { envA with
      errortextOf := fun c =>
        match c with
        | .destroyVirtualMachine _ _ => some "no permission"
        | _ => none }
    { pA with state := "absent" } vmRunningA "no permission" rfl).2.2.1
    (Or.inl rfl) (by decide) rfl

/-- Counterexample to C4: with desired state restarted on a running VM,
the first invocation succeeds and reports a change, and the immediately
repeated invocation with the same desired state and spec reboots again and
reports changed true, not false. -/
theorem c4_counterexample_restarted_not_idempotent :
    (reconcile envA { pA with state := "restarted" }
      (some vmRunningA)).outcome = Except.ok ()
    ∧ (reconcile envA { pA with state := "restarted" }
        (some vmRunningA)).changed = true
    ∧ (reconcile envA { pA with state := "restarted" }
        ((reconcile envA { pA with state := "restarted" }
          (some vmRunningA)).world)).changed = true :=
  ⟨rfl, rfl, rfl⟩

/-- C10: when no service offering selector is supplied, the id of the
first listed service offering is the resolved offering: an existing VM
whose current offering differs from the first listed one triggers a scale
to that id with changed reported, and a deploy submitted for a new VM
carries that id as its offering. -/
theorem c10_default_offering_first_listed (env : Env) (p : ModuleParams)
    (o : Offering) (os : List Offering) (v : VM)
    (hso : env.serviceofferings = o :: os)
    (hsel : getStr p.service_offering = none)
    (hstate : p.state = "present" ∨ p.state = "created")
    (hmode : p.check_mode = false)
    (henv : ∀ c, env.errortextOf c = none) :
    (v.serviceofferingid ≠ o.id →
      (reconcile env p (some v)).changed = true
      ∧ (Call.scaleVirtualMachine v.id o.id) ∈ (reconcile env p (some v)).calls)
    ∧ (∀ tid zid pid ids doid hyp,
      (get_template_or_iso_id env p).1 = Except.ok tid →
      (get_zone_id env p).1 = Except.ok zid →
      (get_project_id env p).1 = Except.ok pid →
      (get_network_ids env p).1 = Except.ok (some ids) →
      (get_disk_offering_id env p).1 = Except.ok doid →
      (get_hypervisor env p).1 = Except.ok hyp →
      (Call.deployVirtualMachine (deployArgsOf p tid zid o.id pid ids doid hyp))
        ∈ (reconcile env p none).calls
      ∧ (deployArgsOf p tid zid o.id pid ids doid hyp).serviceofferingid
          = o.id) := by
  have hres : get_service_offering_id env p = (Except.ok o.id,
      [Call.listServiceOfferings]) := by
    simp [get_service_offering_id, hso, hsel]
  constructor
  · intro hne
    rcases hstate with h | h <;>
      cases v <;> rename_i vid vname vdn vstate vso <;>
      cases vstate <;>
      simp only [reconcile, dispatchStep, h, hmode, scale_vm, stop_vm, start_vm, hres,
        submit, poll_job_rv, finish, VmState.lower, setChanged, emitAll,
        RVal.errortext, RVal.idOf, henv] <;>
      simp_all [hne, henv, applyCall] <;>
      cases hpa : p.poll_async <;>
      simp_all [henv, applyCall]
  · intro tid zid pid ids doid hyp h1 h2 h4 h5 h6 h7
    refine ⟨?_, rfl⟩
    rcases hstate with h | h <;>
      simp [reconcile, dispatchStep, h, hmode, create_vm, h1, h2, hres, h4, h5, h6, h7,
        submit, poll_job_rv, finish, setChanged, emitAll, RVal.errortext,
        henv] <;>
      cases hpa : p.poll_async <;>
      simp [hpa, applyCall]

/-- Witness for C10 at a concrete input: with no offering selector, an
existing VM on so-1 is scaled to the first listed offering so-2, and the
deploy for a new VM carries so-2. -/
theorem c10_default_offering_first_listed_witness :
    ((Call.scaleVirtualMachine "vm-1" "so-2") ∈
      (reconcile envA pA (some vmRunningA)).calls)
    ∧ ((Call.deployVirtualMachine
        (deployArgsOf pA "t1" "z1" "so-2" none ["n1"] none "KVM"))
      ∈ (reconcile envA pA none).calls) :=
  ⟨((c10_default_offering_first_listed envA pA ⟨"so-2", "small"⟩
      [⟨"so-1", "tiny"⟩] vmRunningA rfl rfl (Or.inl rfl) rfl
      (fun _ => rfl)).1 (by decide)).2,
   (((c10_default_offering_first_listed envA pA ⟨"so-2", "small"⟩
      [⟨"so-1", "tiny"⟩] vmRunningA rfl rfl (Or.inl rfl) rfl
      (fun _ => rfl)).2 "t1" "z1" none ["n1"] none "KVM"
      rfl rfl rfl rfl rfl rfl).1)⟩

/-- The reported fields of a finished run are those of the final context
of the dispatched step. -/
theorem finish_fields (p : ModuleParams) (r : Res RVal) :
    (finish p r).changed = r.ctx.changed ∧ (finish p r).calls = r.ctx.calls
    ∧ (finish p r).world = r.ctx.world := by
  cases r with
  | fail m k => simp [finish, Res.ctx]
  | ok rv k =>
    cases rv with
    | noneV => simp [finish, Res.ctx]
    | respV j e => simp [finish, Res.ctx]
    | vmV v =>
      simp only [finish, Res.ctx]
      split <;> simp

/-- The zone lookup always issues exactly the zone listing call. -/
theorem zone_calls_eq (env : Env) (p : ModuleParams) :
    (get_zone_id env p).2 = [Call.listZones] := rfl

/-- The service offering lookup always issues exactly the offering listing
call. -/
theorem so_calls_eq (env : Env) (p : ModuleParams) :
    (get_service_offering_id env p).2 = [Call.listServiceOfferings] := rfl

/-- The hypervisor lookup always issues exactly the hypervisor listing
call. -/
theorem hyp_calls_eq (env : Env) (p : ModuleParams) :
    (get_hypervisor env p).2 = [Call.listHypervisors] := rfl

/-- The template or ISO lookup issues only listing calls. -/
theorem template_calls_lookupFree (env : Env) (p : ModuleParams) :
    lookupFree (get_template_or_iso_id env p).2 = true := by
  unfold get_template_or_iso_id
  cases getStr p.template <;> cases getStr p.iso <;>
    simp [lookupFree, Call.isMutating, Call.isPoll]

/-- The project lookup issues only listing calls. -/
theorem project_calls_lookupFree (env : Env) (p : ModuleParams) :
    lookupFree (get_project_id env p).2 = true := by
  unfold get_project_id
  cases getStr p.project <;>
    simp [lookupFree, Call.isMutating, Call.isPoll]

/-- The disk offering lookup issues only listing calls. -/
theorem disk_calls_lookupFree (env : Env) (p : ModuleParams) :
    lookupFree (get_disk_offering_id env p).2 = true := by
  unfold get_disk_offering_id
  cases getStr p.disk_offering <;>
    simp [lookupFree, Call.isMutating, Call.isPoll]

/-- The network lookup issues only listing calls. -/
theorem networks_calls_lookupFree (env : Env) (p : ModuleParams) :
    lookupFree (get_network_ids env p).2 = true := by
  unfold get_network_ids
  split
  · simp [lookupFree]
  · rcases hzc : get_zone_id env p with ⟨z, cz⟩
    have hcz : cz = [Call.listZones] := by
      have h := zone_calls_eq env p
      rw [hzc] at h
      simpa using h
    rcases hpc : get_project_id env p with ⟨pr, cp⟩
    have hcp : lookupFree cp = true := by
      have h := project_calls_lookupFree env p
      rw [hpc] at h
      simpa using h
    subst hcz
    cases z <;> cases pr <;>
      simp_all [lookupFree, Call.isMutating, Call.isPoll, List.all_append]

/-- lookupFree distributes over list concatenation. -/
theorem lookupFree_append (a b : List Call) :
    lookupFree (a ++ b) = (lookupFree a && lookupFree b) := by
  simp [lookupFree, List.all_append]

/-- In check mode stop_vm issues no call and leaves the world alone. -/
theorem stop_vm_check_ctx (env : Env) (p : ModuleParams) (k : Ctx)
    (hc : p.check_mode = true) :
    (stop_vm env p k).ctx.calls = k.calls
    ∧ (stop_vm env p k).ctx.world = k.world := by
  cases hw : k.world
  · simp [stop_vm, hw, Res.ctx]
  · simp only [stop_vm, hw, hc]
    split <;> simp [Res.ctx, setChanged, hw]

/-- In check mode start_vm issues no call and leaves the world alone. -/
theorem start_vm_check_ctx (env : Env) (p : ModuleParams) (k : Ctx)
    (hc : p.check_mode = true) :
    (start_vm env p k).ctx.calls = k.calls
    ∧ (start_vm env p k).ctx.world = k.world := by
  cases hw : k.world
  · simp [start_vm, hw, Res.ctx]
  · simp only [start_vm, hw, hc]
    split <;> simp [Res.ctx, setChanged, hw]

/-- In check mode restart_vm issues no call and leaves the world alone. -/
theorem restart_vm_check_ctx (env : Env) (p : ModuleParams) (k : Ctx)
    (hc : p.check_mode = true) :
    (restart_vm env p k).ctx.calls = k.calls
    ∧ (restart_vm env p k).ctx.world = k.world := by
  cases hw : k.world
  · simp [restart_vm, hw, Res.ctx]
  · simp only [restart_vm, hw, hc]
    split <;> [skip; split] <;> simp [Res.ctx, setChanged, hw]

/-- In check mode remove_vm issues no call and leaves the world alone. -/
theorem remove_vm_check_ctx (env : Env) (p : ModuleParams) (k : Ctx)
    (hc : p.check_mode = true) :
    (remove_vm env p k).ctx.calls = k.calls
    ∧ (remove_vm env p k).ctx.world = k.world := by
  cases hw : k.world
  · simp [remove_vm, hw, Res.ctx]
  · simp only [remove_vm, hw, hc]
    split <;> simp [Res.ctx, setChanged, hw]

/-- In check mode expunge_vm issues no call and leaves the world alone. -/
theorem expunge_vm_check_ctx (env : Env) (p : ModuleParams) (k : Ctx)
    (hc : p.check_mode = true) :
    (expunge_vm env p k).ctx.calls = k.calls
    ∧ (expunge_vm env p k).ctx.world = k.world := by
  cases hw : k.world
  · simp [expunge_vm, hw, Res.ctx]
  · rename_i v
    by_cases h1 : (v.state.lower == "destroying"
        || v.state.lower == "destroyed") = true <;>
      by_cases h2 : (!(v.state.lower == "expunging")) = true <;>
      cases hpa : p.poll_async <;>
      simp [expunge_vm, hw, hc, h1, h2, hpa, Res.ctx, setChanged,
        poll_job_rv, RVal.errortext]

/-- The resolvers read only the module parameters other than the check
mode flag. -/
theorem resolvers_check_invariant (env : Env) (p : ModuleParams) (b : Bool) :
    get_template_or_iso_id env { p with check_mode := b }
      = get_template_or_iso_id env p
    ∧ get_zone_id env { p with check_mode := b } = get_zone_id env p
    ∧ get_service_offering_id env { p with check_mode := b }
      = get_service_offering_id env p
    ∧ get_project_id env { p with check_mode := b } = get_project_id env p
    ∧ get_network_ids env { p with check_mode := b } = get_network_ids env p
    ∧ get_disk_offering_id env { p with check_mode := b }
      = get_disk_offering_id env p
    ∧ get_hypervisor env { p with check_mode := b } = get_hypervisor env p :=
  ⟨rfl, rfl, rfl, rfl, rfl, rfl, rfl⟩

theorem lookupFree_nil : lookupFree [] = true := rfl

/-- lookupFree unfolds on a cons cell. -/
theorem lookupFree_cons (c : Call) (l : List Call) :
    lookupFree (c :: l) = ((!c.isMutating && !c.isPoll) && lookupFree l) := by
  simp [lookupFree]

theorem lookupFree_listZones : lookupFree [Call.listZones] = true := rfl

theorem lookupFree_listSO : lookupFree [Call.listServiceOfferings] = true :=
  rfl

theorem lookupFree_listHyp : lookupFree [Call.listHypervisors] = true := rfl

/-- In check mode scale_vm issues only resolver lookups and leaves the
world alone. -/
theorem scale_vm_check_ctx (env : Env) (p : ModuleParams) (k : Ctx)
    (hc : p.check_mode = true) (hk : lookupFree k.calls = true) :
    lookupFree (scale_vm env p k).ctx.calls = true
    ∧ (scale_vm env p k).ctx.world = k.world := by
  cases hw : k.world with
  | none => simp [scale_vm, hw, Res.ctx, hk]
  | some v =>
    cases hso : (get_service_offering_id env p).1 with
    | error m =>
      simp [scale_vm, hw, hc, hso, Res.ctx, emitAll, setChanged, hk,
        lookupFree_append, lookupFree_listSO, so_calls_eq]
    | ok soid =>
      by_cases hne : v.serviceofferingid = soid <;>
        simp [scale_vm, hw, hc, hso, hne, Res.ctx, emitAll, setChanged, hk,
          lookupFree_append, lookupFree_listSO, so_calls_eq]

/-- In check mode create_vm issues only resolver lookups and leaves the
world alone. -/
theorem create_vm_check_ctx (env : Env) (p : ModuleParams) (k : Ctx)
    (hc : p.check_mode = true) (hk : lookupFree k.calls = true) :
    lookupFree (create_vm env p k).ctx.calls = true
    ∧ (create_vm env p k).ctx.world = k.world
    ∧ (k.world = none → (create_vm env p k).ctx.changed = true) := by
  cases hw : k.world with
  | some v => simp [create_vm, hw, Res.ctx, hk]
  | none =>
  simp only [create_vm, hw, hc]
  cases h1 : (get_template_or_iso_id env p).1 with
  | error m =>
    simp [h1, Res.ctx, emitAll, setChanged, hw, hk, lookupFree_append, lookupFree_cons, lookupFree_nil,
      Call.isMutating, Call.isPoll, template_calls_lookupFree]
  | ok tid =>
  cases h2 : (get_zone_id env p).1 with
  | error m =>
    simp [h1, h2, Res.ctx, emitAll, setChanged, hw, hk, lookupFree_append, lookupFree_cons, lookupFree_nil,
      Call.isMutating, Call.isPoll, template_calls_lookupFree, zone_calls_eq, lookupFree_listZones]
  | ok zid =>
  cases h3 : (get_service_offering_id env p).1 with
  | error m =>
    simp [h1, h2, h3, Res.ctx, emitAll, setChanged, hw, hk,
      lookupFree_append, lookupFree_cons, lookupFree_nil, Call.isMutating, Call.isPoll, template_calls_lookupFree, zone_calls_eq,
      lookupFree_listZones, so_calls_eq, lookupFree_listSO]
  | ok soid =>
  cases h4 : (get_project_id env p).1 with
  | error m =>
    simp [h1, h2, h3, h4, Res.ctx, emitAll, setChanged, hw, hk,
      lookupFree_append, lookupFree_cons, lookupFree_nil, Call.isMutating, Call.isPoll, template_calls_lookupFree, zone_calls_eq,
      lookupFree_listZones, so_calls_eq, lookupFree_listSO,
      project_calls_lookupFree]
  | ok pid =>
  cases h5 : (get_network_ids env p).1 with
  | error m =>
    simp [h1, h2, h3, h4, h5, Res.ctx, emitAll, setChanged, hw, hk,
      lookupFree_append, lookupFree_cons, lookupFree_nil, Call.isMutating, Call.isPoll, template_calls_lookupFree, zone_calls_eq,
      lookupFree_listZones, so_calls_eq, lookupFree_listSO,
      project_calls_lookupFree, networks_calls_lookupFree]
  | ok nids =>
  cases nids with
  | none =>
    simp [h1, h2, h3, h4, h5, Res.ctx, emitAll, setChanged, hw, hk,
      lookupFree_append, lookupFree_cons, lookupFree_nil, Call.isMutating, Call.isPoll, template_calls_lookupFree, zone_calls_eq,
      lookupFree_listZones, so_calls_eq, lookupFree_listSO,
      project_calls_lookupFree, networks_calls_lookupFree]
  | some ids =>
  cases h6 : (get_disk_offering_id env p).1 with
  | error m =>
    simp [h1, h2, h3, h4, h5, h6, Res.ctx, emitAll, setChanged, hw, hk,
      lookupFree_append, lookupFree_cons, lookupFree_nil, Call.isMutating, Call.isPoll, template_calls_lookupFree, zone_calls_eq,
      lookupFree_listZones, so_calls_eq, lookupFree_listSO,
      project_calls_lookupFree, networks_calls_lookupFree,
      disk_calls_lookupFree]
  | ok doid =>
  cases h7 : (get_hypervisor env p).1 with
  | error m =>
    simp [h1, h2, h3, h4, h5, h6, h7, Res.ctx, emitAll, setChanged, hw, hk,
      lookupFree_append, lookupFree_cons, lookupFree_nil, Call.isMutating, Call.isPoll, template_calls_lookupFree, zone_calls_eq,
      lookupFree_listZones, so_calls_eq, lookupFree_listSO,
      project_calls_lookupFree, networks_calls_lookupFree,
      disk_calls_lookupFree, hyp_calls_eq, lookupFree_listHyp]
  | ok hyp =>
    simp [h1, h2, h3, h4, h5, h6, h7, Res.ctx, emitAll, setChanged, hw, hk,
      lookupFree_append, lookupFree_cons, lookupFree_nil, Call.isMutating, Call.isPoll, template_calls_lookupFree, zone_calls_eq,
      lookupFree_listZones, so_calls_eq, lookupFree_listSO,
      project_calls_lookupFree, networks_calls_lookupFree,
      disk_calls_lookupFree, hyp_calls_eq, lookupFree_listHyp]

/-- If a normal mode stop_vm run starting from an empty trace submits a
mutating call, the check mode run on the same context reports changed. -/
theorem stop_vm_mut_changed (env : Env) (p : ModuleParams) (k : Ctx)
    (hkc : k.calls = [])
    (hmut : ((stop_vm env { p with check_mode := false } k).ctx.calls.any
      Call.isMutating) = true) :
    (stop_vm env { p with check_mode := true } k).ctx.changed = true := by
  cases hw : k.world with
  | none => simp [stop_vm, hw, Res.ctx, hkc] at hmut
  | some v =>
    by_cases hcond : (v.state.lower == "starting"
        && v.state.lower != "running") = true
    · simp [stop_vm, hw, hcond, Res.ctx, setChanged]
    · simp [stop_vm, hw, hcond, Res.ctx, hkc] at hmut

/-- If a normal mode start_vm run starting from an empty trace submits a
mutating call, the check mode run on the same context reports changed. -/
theorem start_vm_mut_changed (env : Env) (p : ModuleParams) (k : Ctx)
    (hkc : k.calls = [])
    (hmut : ((start_vm env { p with check_mode := false } k).ctx.calls.any
      Call.isMutating) = true) :
    (start_vm env { p with check_mode := true } k).ctx.changed = true := by
  cases hw : k.world with
  | none => simp [start_vm, hw, Res.ctx, hkc] at hmut
  | some v =>
    by_cases hcond : (v.state.lower == "stopped"
        || v.state.lower == "stopping") = true
    · simp [start_vm, hw, hcond, Res.ctx, setChanged]
    · simp [start_vm, hw, hcond, Res.ctx, hkc] at hmut

/-- If a normal mode restart_vm run starting from an empty trace submits a
mutating call, the check mode run on the same context reports changed. -/
theorem restart_vm_mut_changed (env : Env) (p : ModuleParams) (k : Ctx)
    (hkc : k.calls = [])
    (hmut : ((restart_vm env { p with check_mode := false } k).ctx.calls.any
      Call.isMutating) = true) :
    (restart_vm env { p with check_mode := true } k).ctx.changed = true := by
  cases hw : k.world with
  | none => simp [restart_vm, hw, Res.ctx, hkc] at hmut
  | some v =>
    by_cases hcond : (v.state.lower == "running"
        || v.state.lower == "starting") = true
    · simp [restart_vm, hw, hcond, Res.ctx, setChanged]
    · by_cases hcond2 : (v.state.lower == "stopping"
          || v.state.lower == "stopped") = true <;>
        simp [restart_vm, hw, hcond, hcond2, Res.ctx, hkc] at hmut

/-- If a normal mode remove_vm run starting from an empty trace submits a
mutating call, the check mode run on the same context reports changed. -/
theorem remove_vm_mut_changed (env : Env) (p : ModuleParams) (k : Ctx)
    (hkc : k.calls = [])
    (hmut : ((remove_vm env { p with check_mode := false } k).ctx.calls.any
      Call.isMutating) = true) :
    (remove_vm env { p with check_mode := true } k).ctx.changed = true := by
  cases hw : k.world with
  | none => simp [remove_vm, hw, Res.ctx, hkc] at hmut
  | some v =>
    by_cases hcond : (!(v.state.lower == "expunging"
        || v.state.lower == "destroying"
        || v.state.lower == "destroyed")) = true
    · simp [remove_vm, hw, hcond, Res.ctx, setChanged]
    · simp [remove_vm, hw, hcond, Res.ctx, hkc] at hmut

/-- If a normal mode expunge_vm run starting from an empty trace submits a
mutating call, the check mode run on the same context reports changed. -/
theorem expunge_vm_mut_changed (env : Env) (p : ModuleParams) (k : Ctx)
    (hkc : k.calls = [])
    (hmut : ((expunge_vm env { p with check_mode := false } k).ctx.calls.any
      Call.isMutating) = true) :
    (expunge_vm env { p with check_mode := true } k).ctx.changed = true := by
  cases hw : k.world with
  | none => simp [expunge_vm, hw, Res.ctx, hkc] at hmut
  | some v =>
    by_cases h1 : (v.state.lower == "destroying"
        || v.state.lower == "destroyed") = true
    · cases hpa : p.poll_async <;>
        simp [expunge_vm, hw, h1, hpa, Res.ctx, setChanged, poll_job_rv,
          RVal.errortext]
    · by_cases h2 : (!(v.state.lower == "expunging")) = true
      · cases hpa : p.poll_async <;>
          simp [expunge_vm, hw, h1, h2, hpa, Res.ctx, setChanged,
            poll_job_rv, RVal.errortext]
      · cases hpa : p.poll_async <;>
          simp [expunge_vm, hw, h1, h2, hpa, Res.ctx, setChanged,
            poll_job_rv, RVal.errortext, hkc] at hmut

/-- If a normal mode scale_vm run starting from an empty trace submits a
mutating call, the check mode run on the same context reports changed. -/
theorem scale_vm_mut_changed (env : Env) (p : ModuleParams) (k : Ctx)
    (hkc : k.calls = [])
    (hmut : ((scale_vm env { p with check_mode := false } k).ctx.calls.any
      Call.isMutating) = true) :
    (scale_vm env { p with check_mode := true } k).ctx.changed = true := by
  have hinv0 := (resolvers_check_invariant env p false).2.2.1
  have hinv1 := (resolvers_check_invariant env p true).2.2.1
  cases hw : k.world with
  | none => simp [scale_vm, hw, Res.ctx, hkc] at hmut
  | some v =>
    cases hso : (get_service_offering_id env p).1 with
    | error m =>
      rw [scale_vm, hinv0] at hmut
      simp [hw, hso, Res.ctx, emitAll, hkc, so_calls_eq, Call.isMutating]
        at hmut
    | ok soid =>
      by_cases hne : v.serviceofferingid = soid
      · rw [scale_vm, hinv0] at hmut
        simp [hw, hso, hne, Res.ctx, emitAll, hkc, so_calls_eq,
          Call.isMutating] at hmut
      · rw [scale_vm, hinv1]
        simp [hw, hso, hne, Res.ctx, emitAll, setChanged]

/-- Dispatch in check mode: only resolver lookups are issued and the world
is untouched. -/
theorem dispatchStep_check_ctx (env : Env) (p : ModuleParams) (k : Ctx)
    (hc : p.check_mode = true) (hk : lookupFree k.calls = true) :
    lookupFree (dispatchStep env p k).ctx.calls = true
    ∧ (dispatchStep env p k).ctx.world = k.world := by
  unfold dispatchStep
  split
  · obtain ⟨h1, h2⟩ := remove_vm_check_ctx env p k hc
    rw [h1, h2]
    exact ⟨hk, rfl⟩
  split
  · obtain ⟨h1, h2⟩ := expunge_vm_check_ctx env p k hc
    rw [h1, h2]
    exact ⟨hk, rfl⟩
  split
  · split
    · exact ⟨(create_vm_check_ctx env p k hc hk).1,
        (create_vm_check_ctx env p k hc hk).2.1⟩
    · exact scale_vm_check_ctx env p k hc hk
  split
  · obtain ⟨h1, h2⟩ := stop_vm_check_ctx env p k hc
    rw [h1, h2]
    exact ⟨hk, rfl⟩
  split
  · obtain ⟨h1, h2⟩ := start_vm_check_ctx env p k hc
    rw [h1, h2]
    exact ⟨hk, rfl⟩
  split
  · obtain ⟨h1, h2⟩ := restart_vm_check_ctx env p k hc
    rw [h1, h2]
    exact ⟨hk, rfl⟩
  · exact ⟨hk, rfl⟩

/-- Dispatch: a normal mode run from a fresh context that submits a
mutating call has its check mode counterpart report changed. -/
theorem dispatchStep_mut_changed (env : Env) (p : ModuleParams) (k : Ctx)
    (hkc : k.calls = [])
    (hmut : ((dispatchStep env { p with check_mode := false } k).ctx.calls.any
      Call.isMutating) = true) :
    (dispatchStep env { p with check_mode := true } k).ctx.changed = true := by
  by_cases hA : (p.state == "absent" || p.state == "destroyed") = true
  · simp only [dispatchStep, hA, Bool.false_eq_true, eq_self_iff_true,
      if_true, if_false] at hmut ⊢
    exact remove_vm_mut_changed env p k hkc hmut
  by_cases hE : (p.state == "expunged") = true
  · simp only [dispatchStep, hA, hE, Bool.false_eq_true, eq_self_iff_true,
      if_true, if_false] at hmut ⊢
    exact expunge_vm_mut_changed env p k hkc hmut
  by_cases hP : (p.state == "present" || p.state == "created") = true
  · simp only [dispatchStep, hA, hE, hP, Bool.false_eq_true,
      eq_self_iff_true, if_true, if_false] at hmut ⊢
    cases hw : k.world with
    | none =>
      exact (create_vm_check_ctx env { p with check_mode := true } k rfl
        (by rw [hkc]; rfl)).2.2 hw
    | some v =>
      rw [hw] at hmut
      exact scale_vm_mut_changed env p k hkc hmut
  by_cases hS : (p.state == "stopped" || p.state == "halted") = true
  · simp only [dispatchStep, hA, hE, hP, hS, Bool.false_eq_true,
      eq_self_iff_true, if_true, if_false] at hmut ⊢
    exact stop_vm_mut_changed env p k hkc hmut
  by_cases hT : (p.state == "started" || p.state == "running"
      || p.state == "booted") = true
  · simp only [dispatchStep, hA, hE, hP, hS, hT, Bool.false_eq_true,
      eq_self_iff_true, if_true, if_false] at hmut ⊢
    exact start_vm_mut_changed env p k hkc hmut
  by_cases hR : (p.state == "restarted" || p.state == "rebooted") = true
  · simp only [dispatchStep, hA, hE, hP, hS, hT, hR, Bool.false_eq_true,
      eq_self_iff_true, if_true, if_false] at hmut ⊢
    exact restart_vm_mut_changed env p k hkc hmut
  · simp only [dispatchStep, hA, hE, hP, hS, hT, hR, Bool.false_eq_true,
      eq_self_iff_true, if_true, if_false] at hmut
    simp [Res.ctx, hkc] at hmut

/-- C5: any scenario whose normal mode reconciliation submits a mutating
call reports changed true under check mode, while the check mode run
issues no mutating call and no polling call (only resolver lookups) and
leaves the remote world untouched. -/
theorem c5_check_mode_frame (env : Env) (p : ModuleParams) (w : Option VM)
    (hmut : ((reconcile env { p with check_mode := false } w).calls.any
      Call.isMutating) = true) :
    (reconcile env { p with check_mode := true } w).changed = true
    ∧ lookupFree (reconcile env { p with check_mode := true } w).calls = true
    ∧ (reconcile env { p with check_mode := true } w).world = w := by
  have hf1 := finish_fields { p with check_mode := true }
    (dispatchStep env { p with check_mode := true } ⟨w, false, []⟩)
  have hf0 := finish_fields { p with check_mode := false }
    (dispatchStep env { p with check_mode := false } ⟨w, false, []⟩)
  simp only [reconcile] at hmut ⊢
  rw [hf0.2.1] at hmut
  refine ⟨?_, ?_, ?_⟩
  · rw [hf1.1]
    exact dispatchStep_mut_changed env p ⟨w, false, []⟩ rfl hmut
  · rw [hf1.2.1]
    exact (dispatchStep_check_ctx env { p with check_mode := true }
      ⟨w, false, []⟩ rfl rfl).1
  · rw [hf1.2.2]
    exact (dispatchStep_check_ctx env { p with check_mode := true }
      ⟨w, false, []⟩ rfl rfl).2

/-- Witness for C5 at a concrete input: stopping a starting VM mutates in
normal mode, and in check mode reports changed with a lookup and poll free
trace and an untouched world. -/
theorem c5_check_mode_frame_witness :
    (reconcile envA { { pA with state := "stopped" } with check_mode := true }
      (some { vmRunningA with state := .starting })).changed = true
    ∧ lookupFree (reconcile envA
        { { pA with state := "stopped" } with check_mode := true }
        (some { vmRunningA with state := .starting })).calls = true
    ∧ (reconcile envA
        { { pA with state := "stopped" } with check_mode := true }
        (some { vmRunningA with state := .starting })).world =
      some { vmRunningA with state := .starting } :=
  c5_check_mode_frame envA { pA with state := "stopped" }
    (some { vmRunningA with state := .starting }) (by decide)

/-- C4 amended: with normal mode, an interference free provider accepting
every operation, and any desired state other than restarted and rebooted,
a successful reconciliation followed by a second reconciliation with the
same desired state and spec reports changed false on the second call; the
restarted and rebooted states are excluded because a reboot fires again on
the already running VM. -/
theorem c4_amended_idempotent_except_restart (env : Env) (p : ModuleParams)
    (w : Option VM)
    (hmode : p.check_mode = false)
    (henv : ∀ c, env.errortextOf c = none)
    (hnr : ¬(p.state = "restarted" ∨ p.state = "rebooted"))
    (hok : (reconcile env p w).outcome = Except.ok ()) :
    (reconcile env p ((reconcile env p w).world)).changed = false := by
  by_cases hA : (p.state == "absent" || p.state == "destroyed") = true
  · simp only [reconcile, dispatchStep, hA, Bool.false_eq_true,
      eq_self_iff_true, if_true, if_false] at hok ⊢
    cases w with
    | none => simp [remove_vm, finish, Res.ctx]
    | some v =>
      cases hv : v.state <;> cases hpa : p.poll_async <;>
        simp_all [remove_vm, submit, poll_job_rv, finish, Res.ctx,
          setChanged, emitAll, applyCall, VmState.lower, RVal.errortext,
          henv, hmode]
  by_cases hE : (p.state == "expunged") = true
  · simp only [reconcile, dispatchStep, hA, hE, Bool.false_eq_true,
      eq_self_iff_true, if_true, if_false] at hok ⊢
    cases w with
    | none => simp [expunge_vm, finish, Res.ctx]
    | some v =>
      cases hv : v.state <;> cases hpa : p.poll_async <;>
        simp_all [expunge_vm, submit, poll_job_rv, finish, Res.ctx,
          setChanged, emitAll, applyCall, VmState.lower, RVal.errortext,
          henv, hmode]
  by_cases hP : (p.state == "present" || p.state == "created") = true
  · simp only [reconcile, dispatchStep, hA, hE, hP, Bool.false_eq_true,
      eq_self_iff_true, if_true, if_false] at hok ⊢
    cases w with
    | none =>
      cases h1 : (get_template_or_iso_id env p).1 with
      | error m => simp_all [create_vm, finish, Res.ctx, emitAll, setChanged]
      | ok tid =>
      cases h2 : (get_zone_id env p).1 with
      | error m => simp_all [create_vm, finish, Res.ctx, emitAll, setChanged]
      | ok zid =>
      cases h3 : (get_service_offering_id env p).1 with
      | error m => simp_all [create_vm, finish, Res.ctx, emitAll, setChanged]
      | ok soid =>
      cases h4 : (get_project_id env p).1 with
      | error m => simp_all [create_vm, finish, Res.ctx, emitAll, setChanged]
      | ok pid =>
      cases h5 : (get_network_ids env p).1 with
      | error m => simp_all [create_vm, finish, Res.ctx, emitAll, setChanged]
      | ok nids =>
      cases nids with
      | none => simp_all [create_vm, finish, Res.ctx, emitAll, setChanged]
      | some ids =>
      cases h6 : (get_disk_offering_id env p).1 with
      | error m => simp_all [create_vm, finish, Res.ctx, emitAll, setChanged]
      | ok doid =>
      cases h7 : (get_hypervisor env p).1 with
      | error m => simp_all [create_vm, finish, Res.ctx, emitAll, setChanged]
      | ok hyp =>
        cases hpa : p.poll_async <;>
          simp_all [create_vm, scale_vm, submit, poll_job_rv, finish,
            Res.ctx, setChanged, emitAll, applyCall, deployArgsOf,
            RVal.errortext, henv, hmode]
    | some v =>
      cases h3 : (get_service_offering_id env p).1 with
      | error m => simp_all [scale_vm, finish, Res.ctx, emitAll, setChanged]
      | ok soid =>
      by_cases hne : v.serviceofferingid = soid
      · by_cases herr : v.state = VmState.error <;>
          simp_all [scale_vm, finish, Res.ctx, emitAll, setChanged]
      · cases hv : v.state <;> cases hpa : p.poll_async <;>
          simp_all [scale_vm, stop_vm, start_vm, submit, poll_job_rv,
            finish, Res.ctx, setChanged, emitAll, applyCall, VmState.lower,
            RVal.errortext, RVal.idOf, henv, hmode]
  by_cases hS : (p.state == "stopped" || p.state == "halted") = true
  · simp only [reconcile, dispatchStep, hA, hE, hP, hS, Bool.false_eq_true,
      eq_self_iff_true, if_true, if_false] at hok ⊢
    cases w with
    | none => simp_all [stop_vm, finish, Res.ctx]
    | some v =>
      cases hv : v.state <;> cases hpa : p.poll_async <;>
        simp_all [stop_vm, submit, poll_job_rv, finish, Res.ctx,
          setChanged, emitAll, applyCall, VmState.lower, RVal.errortext,
          henv, hmode]
  by_cases hT : (p.state == "started" || p.state == "running"
      || p.state == "booted") = true
  · simp only [reconcile, dispatchStep, hA, hE, hP, hS, hT,
      Bool.false_eq_true, eq_self_iff_true, if_true, if_false] at hok ⊢
    cases w with
    | none => simp_all [start_vm, finish, Res.ctx]
    | some v =>
      cases hv : v.state <;> cases hpa : p.poll_async <;>
        simp_all [start_vm, submit, poll_job_rv, finish, Res.ctx,
          setChanged, emitAll, applyCall, VmState.lower, RVal.errortext,
          henv, hmode]
  by_cases hR : (p.state == "restarted" || p.state == "rebooted") = true
  · exact absurd (by simpa using hR) hnr
  · simp only [reconcile, dispatchStep, hA, hE, hP, hS, hT, hR,
      Bool.false_eq_true, eq_self_iff_true, if_true, if_false] at hok ⊢
    cases w with
    | none => simp [finish, Res.ctx]
    | some v =>
      by_cases herr : v.state = VmState.error <;> simp_all [finish, Res.ctx]

/-- Witness for the amended C4 at a concrete input: stopping a starting VM
succeeds and the repeated invocation reports changed false. -/
theorem c4_amended_idempotent_except_restart_witness :
    (reconcile envA { pA with state := "stopped" }
      ((reconcile envA { pA with state := "stopped" }
        (some { vmRunningA with state := .starting })).world)).changed
      = false :=
  c4_amended_idempotent_except_restart envA { pA with state := "stopped" }
    (some { vmRunningA with state := .starting }) rfl (fun _ => rfl)
    (by simp) rfl

end CsVm